import Mathlib

/-!
Verification of `portable/system.h` (macrotex/perl-kerberos).

The header is pure C-preprocessor glue: an include guard, a fixed sequence of
`#include` directives (some conditional on autoconf feature flags), and five
fallback substitutions (`snprintf` alias on Windows, `ssize_t` typedef,
the three `*_FILENO` constants, `va_copy`).  We embed preprocessing of the
header as a total function on an explicit preprocessor state: the state
records which of the macros the header tests are currently defined, plus a
journal of the inclusions performed and the definitions the header itself
emitted.
-/

namespace SystemH

/-- The autoconf feature flags and platform symbols consulted by the header
(`HAVE_INTTYPES_H`, `HAVE_STDINT_H`, `HAVE_STRINGS_H`, `HAVE_UNISTD_H`,
`HAVE_SYS_BITYPES_H`, `HAVE_SSIZE_T`, `_WIN32`, and whether the alternate
macro `__va_copy` is defined). -/
structure Flags where
  haveInttypesH : Bool
  haveStdintH : Bool
  haveStringsH : Bool
  haveUnistdH : Bool
  haveSysBitypesH : Bool
  haveSsizeT : Bool
  win32 : Bool
  altVaCopy : Bool
deriving DecidableEq

/-- The headers `portable/system.h` can `#include`, in source order. -/
inductive Hdr where
  | configH
  | portableMacrosH
  | inttypesH
  | stdargH
  | stddefH
  | stdintH
  | stdioH
  | stdlibH
  | stringH
  | stringsH
  | sysTypesH
  | unistdH
  | sysBitypesH
  | portableStdboolH
deriving DecidableEq

/-- How `va_copy` is defined: pre-existing before inclusion (`external`),
via the alternate macro `__va_copy`, or via the `memcpy` fallback. -/
inductive VaCopyImpl where
  | external
  | viaAlt
  | viaMemcpy
deriving DecidableEq

/-- The macro expansion each `va_copy` definition stands for, from the
source text of the header. -/
def vaCopyExpansion : VaCopyImpl → String
  | .external => ""
  | .viaAlt => "__va_copy((d), (s))"
  | .viaMemcpy => "memcpy(&(d), &(s), sizeof(va_list))"

/-- A definition the header itself can emit. -/
inductive Defn where
  | dSnprintf
  | dSsizeT
  | dStdinFileno
  | dStdoutFileno
  | dStderrFileno
  | dVaCopy (impl : VaCopyImpl)
deriving DecidableEq

/-- `true` exactly on the three stream-descriptor-constant definitions. -/
def isFileno : Defn → Bool
  | .dStdinFileno => true
  | .dStdoutFileno => true
  | .dStderrFileno => true
  | _ => false

/-- `true` exactly on a `va_copy` definition. -/
def isVaCopyDef : Defn → Bool
  | .dVaCopy _ => true
  | _ => false

/-- Preprocessor state: the guard `PORTABLE_SYSTEM_H`, the macros the header
tests (`STDIN_FILENO`/`STDOUT_FILENO`/`STDERR_FILENO` with their numeric
values, `va_copy` with its implementation, the `snprintf` macro with its
expansion), and journals of the `#include`s performed and the definitions
emitted. -/
structure CppState where
  guard : Bool
  stdinF : Option Nat
  stdoutF : Option Nat
  stderrF : Option Nat
  vaCopy : Option VaCopyImpl
  snprintfF : Option String
  includes : List Hdr
  defs : List Defn
deriving DecidableEq

/-- Perform one `#include` directive. -/
def doInclude (h : Hdr) (s : CppState) : CppState :=
  { s with includes := s.includes ++ [h] }

/-- `#if FLAG` / `# include <h>` / `#endif`. -/
def condInclude (b : Bool) (h : Hdr) (s : CppState) : CppState :=
  if b then doInclude h s else s

/-- Lines 74-76: `#ifdef _WIN32` / `# define snprintf _snprintf`. -/
def defineSnprintf (c : Flags) (s : CppState) : CppState :=
  if c.win32 then
    { s with snprintfF := some "_snprintf", defs := s.defs ++ [Defn.dSnprintf] }
  else s

/-- Lines 79-81: `#ifndef HAVE_SSIZE_T` / `typedef ptrdiff_t ssize_t`. -/
def defineSsizeT (c : Flags) (s : CppState) : CppState :=
  if c.haveSsizeT then s else { s with defs := s.defs ++ [Defn.dSsizeT] }

/-- Lines 87-91: `#ifndef STDIN_FILENO` then define all three constants as
0, 1, 2.  Note the test is on `STDIN_FILENO` only. -/
def defineFilenos (s : CppState) : CppState :=
  if s.stdinF.isNone then
    { s with stdinF := some 0, stdoutF := some 1, stderrF := some 2,
             defs := s.defs ++ [Defn.dStdinFileno, Defn.dStdoutFileno, Defn.dStderrFileno] }
  else s

/-- Lines 97-103: `#ifndef va_copy`, then `__va_copy` if `__va_copy` is
defined, else the `memcpy` fallback. -/
def defineVaCopy (c : Flags) (s : CppState) : CppState :=
  if s.vaCopy.isNone then
    let impl := if c.altVaCopy then VaCopyImpl.viaAlt else VaCopyImpl.viaMemcpy
    { s with vaCopy := some impl, defs := s.defs ++ [Defn.dVaCopy impl] }
  else s

/-- The body of the header (everything between the include-guard lines),
directive by directive in source order. -/
def systemHBody (c : Flags) (s : CppState) : CppState :=
  defineVaCopy c (defineFilenos (defineSsizeT c (defineSnprintf c
    (doInclude .portableStdboolH
    (condInclude c.haveSysBitypesH .sysBitypesH
    (condInclude c.haveUnistdH .unistdH
    (doInclude .sysTypesH
    (condInclude c.haveStringsH .stringsH
    (doInclude .stringH
    (doInclude .stdlibH
    (doInclude .stdioH
    (condInclude c.haveStdintH .stdintH
    (doInclude .stddefH
    (doInclude .stdargH
    (condInclude c.haveInttypesH .inttypesH
    (doInclude .portableMacrosH
    (doInclude .configH s)))))))))))))))))

/-- Including `portable/system.h`: if the guard `PORTABLE_SYSTEM_H` is
already defined the whole body is skipped, otherwise the guard is defined
and the body is processed. -/
def includeSystemH (c : Flags) (s : CppState) : CppState :=
  if s.guard then s else systemHBody c { s with guard := true }

/-- The symbols that may be defined before the header is first included:
the three stream descriptor constants (with their values) and `va_copy`. -/
structure PreEnv where
  stdin : Option Nat
  stdout : Option Nat
  stderr : Option Nat
  vaPre : Bool
deriving DecidableEq

/-- The preprocessor state of a translation unit just before the first
inclusion of the header: guard undefined, journals empty, pre-defined
symbols as given by the environment. -/
def freshSt (i : PreEnv) : CppState :=
  { guard := false
    stdinF := i.stdin
    stdoutF := i.stdout
    stderrF := i.stderr
    vaCopy := if i.vaPre then some VaCopyImpl.external else none
    snprintfF := none
    includes := []
    defs := [] }

/-- First inclusion of the header from a fresh translation unit. -/
def runFresh (c : Flags) (i : PreEnv) : CppState :=
  includeSystemH c (freshSt i)

/-- The failures the C preprocessor could in principle signal while
processing a header (an `#error` directive).  `portable/system.h` contains
no such directive, so processing never produces one. -/
inductive CppErr where
  | errorDirective (msg : String)

/-- An `#include` directive in the fallible evaluator; it never fails. -/
def doIncludeE (h : Hdr) (s : CppState) : Except CppErr CppState :=
  Except.ok (doInclude h s)

/-- A conditional `#include` in the fallible evaluator. -/
def condIncludeE (b : Bool) (h : Hdr) (s : CppState) : Except CppErr CppState :=
  if b then doIncludeE h s else Except.ok s

/-- Processing the header in a semantics that can signal preprocessor
failure, directive by directive in source order. -/
def includeSystemHChecked (c : Flags) (s : CppState) : Except CppErr CppState :=
  if s.guard then Except.ok s else
  Except.bind (doIncludeE .configH { s with guard := true }) (fun s =>
  Except.bind (doIncludeE .portableMacrosH s) (fun s =>
  Except.bind (condIncludeE c.haveInttypesH .inttypesH s) (fun s =>
  Except.bind (doIncludeE .stdargH s) (fun s =>
  Except.bind (doIncludeE .stddefH s) (fun s =>
  Except.bind (condIncludeE c.haveStdintH .stdintH s) (fun s =>
  Except.bind (doIncludeE .stdioH s) (fun s =>
  Except.bind (doIncludeE .stdlibH s) (fun s =>
  Except.bind (doIncludeE .stringH s) (fun s =>
  Except.bind (condIncludeE c.haveStringsH .stringsH s) (fun s =>
  Except.bind (doIncludeE .sysTypesH s) (fun s =>
  Except.bind (condIncludeE c.haveUnistdH .unistdH s) (fun s =>
  Except.bind (condIncludeE c.haveSysBitypesH .sysBitypesH s) (fun s =>
  Except.bind (doIncludeE .portableStdboolH s) (fun s =>
  Except.ok (defineVaCopy c (defineFilenos (defineSsizeT c (defineSnprintf c s))))))))))))))))))

/-- The outcome of one substitution of the header, as a function of only the
input that substitution reads: the `snprintf` macro after inclusion depends
only on `_WIN32`. -/
def snprintfOutcome (w : Bool) : Option String :=
  if w then some "_snprintf" else none

/-- The `ssize_t` definitions emitted depend only on `HAVE_SSIZE_T`. -/
def ssizeTOutcome (haveIt : Bool) : List Defn :=
  if haveIt then [] else [Defn.dSsizeT]

/-- The stream-descriptor definitions emitted depend only on whether
`STDIN_FILENO` was absent. -/
def filenoOutcome (stdinAbsent : Bool) : List Defn :=
  if stdinAbsent then [Defn.dStdinFileno, Defn.dStdoutFileno, Defn.dStderrFileno] else []

/-- The `va_copy` definitions emitted depend only on whether `va_copy` was
already defined and on `__va_copy`. -/
def vaCopyOutcome (pre alt : Bool) : List Defn :=
  if pre then []
  else [Defn.dVaCopy (if alt then VaCopyImpl.viaAlt else VaCopyImpl.viaMemcpy)]

/-- How many of the integer-width-type headers the configuration makes
available (counted once collectively: `inttypes.h`, `stdint.h`,
`sys/bitypes.h` each provide the same types, guarded against multiple
definition by the system headers themselves). -/
def intTypesCount (c : Flags) : Nat :=
  if c.haveInttypesH || c.haveStdintH || c.haveSysBitypesH then 1 else 0

/-- How many times `STDIN_FILENO` is defined after a first inclusion: once
if pre-defined, plus once per definition emitted by the header. -/
def stdinCount (c : Flags) (i : PreEnv) : Nat :=
  (if i.stdin.isSome then 1 else 0) + (runFresh c i).defs.count Defn.dStdinFileno

/-- How many times `STDOUT_FILENO` is defined after a first inclusion. -/
def stdoutCount (c : Flags) (i : PreEnv) : Nat :=
  (if i.stdout.isSome then 1 else 0) + (runFresh c i).defs.count Defn.dStdoutFileno

/-- How many times `STDERR_FILENO` is defined after a first inclusion. -/
def stderrCount (c : Flags) (i : PreEnv) : Nat :=
  (if i.stderr.isSome then 1 else 0) + (runFresh c i).defs.count Defn.dStderrFileno

/-- How many times `va_copy` is defined after a first inclusion. -/
def vaCopyCount (c : Flags) (i : PreEnv) : Nat :=
  (if i.vaPre then 1 else 0) + (runFresh c i).defs.countP isVaCopyDef

/-- How many times `snprintf` is available after a first inclusion: provided
by `stdio.h` everywhere except Windows (per the header's comment, Windows
only provides it under the name `_snprintf`), plus the header's alias. -/
def snprintfCount (c : Flags) (i : PreEnv) : Nat :=
  (if c.win32 then 0 else 1) + (runFresh c i).defs.count Defn.dSnprintf

/-- A configuration with every feature flag off. -/
def noFlags : Flags := ⟨false, false, false, false, false, false, false, false⟩

/-- A pre-inclusion environment in which `STDOUT_FILENO` is defined (as 7)
but `STDIN_FILENO` and `STDERR_FILENO` are not. -/
def mixedPre : PreEnv := ⟨none, some 7, none, false⟩

theorem condInclude_eq (b : Bool) (h : Hdr) (s : CppState) :
    condInclude b h s = { s with includes := s.includes ++ if b then [h] else [] } := by
  cases b <;> simp [condInclude, doInclude]

theorem defineSnprintf_eq (c : Flags) (s : CppState) :
    defineSnprintf c s =
      { s with snprintfF := if c.win32 then some "_snprintf" else s.snprintfF
               defs := s.defs ++ if c.win32 then [Defn.dSnprintf] else [] } := by
  cases hw : c.win32 <;> simp [defineSnprintf, hw]

theorem defineSsizeT_eq (c : Flags) (s : CppState) :
    defineSsizeT c s =
      { s with defs := s.defs ++ if c.haveSsizeT then [] else [Defn.dSsizeT] } := by
  cases hs : c.haveSsizeT <;> simp [defineSsizeT, hs]

theorem defineFilenos_eq (s : CppState) :
    defineFilenos s =
      { s with stdinF := if s.stdinF.isNone then some 0 else s.stdinF
               stdoutF := if s.stdinF.isNone then some 1 else s.stdoutF
               stderrF := if s.stdinF.isNone then some 2 else s.stderrF
               defs := s.defs ++ if s.stdinF.isNone then
                   [Defn.dStdinFileno, Defn.dStdoutFileno, Defn.dStderrFileno] else [] } := by
  cases hn : s.stdinF.isNone <;> simp [defineFilenos, hn]

theorem defineVaCopy_eq (c : Flags) (s : CppState) :
    defineVaCopy c s =
      { s with vaCopy := if s.vaCopy.isNone then
                   some (if c.altVaCopy then VaCopyImpl.viaAlt else VaCopyImpl.viaMemcpy)
                 else s.vaCopy
               defs := s.defs ++ if s.vaCopy.isNone then
                   [Defn.dVaCopy (if c.altVaCopy then VaCopyImpl.viaAlt else VaCopyImpl.viaMemcpy)]
                 else [] } := by
  cases hn : s.vaCopy.isNone <;> simp [defineVaCopy, hn]

/-- Closed form of a first inclusion: each field of the resulting state as a
function of the flags and the pre-defined symbols. -/
theorem runFresh_eq (c : Flags) (i : PreEnv) :
    runFresh c i =
      { guard := true
        stdinF := if i.stdin.isNone then some 0 else i.stdin
        stdoutF := if i.stdin.isNone then some 1 else i.stdout
        stderrF := if i.stdin.isNone then some 2 else i.stderr
        vaCopy := if i.vaPre then some VaCopyImpl.external
                  else some (if c.altVaCopy then VaCopyImpl.viaAlt else VaCopyImpl.viaMemcpy)
        snprintfF := if c.win32 then some "_snprintf" else none
        includes :=
          [Hdr.configH, Hdr.portableMacrosH]
            ++ (if c.haveInttypesH then [Hdr.inttypesH] else [])
            ++ [Hdr.stdargH, Hdr.stddefH]
            ++ (if c.haveStdintH then [Hdr.stdintH] else [])
            ++ [Hdr.stdioH, Hdr.stdlibH, Hdr.stringH]
            ++ (if c.haveStringsH then [Hdr.stringsH] else [])
            ++ [Hdr.sysTypesH]
            ++ (if c.haveUnistdH then [Hdr.unistdH] else [])
            ++ (if c.haveSysBitypesH then [Hdr.sysBitypesH] else [])
            ++ [Hdr.portableStdboolH]
        defs :=
          (if c.win32 then [Defn.dSnprintf] else [])
            ++ (if c.haveSsizeT then [] else [Defn.dSsizeT])
            ++ (if i.stdin.isNone then
                  [Defn.dStdinFileno, Defn.dStdoutFileno, Defn.dStderrFileno] else [])
            ++ (if i.vaPre then []
                else [Defn.dVaCopy
                       (if c.altVaCopy then VaCopyImpl.viaAlt else VaCopyImpl.viaMemcpy)]) } := by
  cases hv : i.vaPre <;>
    simp [runFresh, includeSystemH, freshSt, systemHBody, doInclude, condInclude_eq,
      defineSnprintf_eq, defineSsizeT_eq, defineFilenos_eq, defineVaCopy_eq, hv]

theorem condIncludeE_ok (b : Bool) (h : Hdr) (s : CppState) :
    condIncludeE b h s = Except.ok (condInclude b h s) := by
  cases b <;> simp [condIncludeE, condInclude, doIncludeE]


/-- Claim C2: when `va_copy` is not already defined, the header defines it —
via `__va_copy` when that alternate macro exists, otherwise as a raw memory
copy (`memcpy` of `sizeof(va_list)` bytes); when `va_copy` is already
defined, the header leaves it untouched and emits no definition for it. -/
theorem c2_va_copy (c : Flags) (i : PreEnv) :
    (runFresh c i).vaCopy =
      (if i.vaPre then some VaCopyImpl.external
       else if c.altVaCopy then some VaCopyImpl.viaAlt else some VaCopyImpl.viaMemcpy)
    ∧ (runFresh c i).defs.filter isVaCopyDef =
      (if i.vaPre then []
       else [Defn.dVaCopy (if c.altVaCopy then VaCopyImpl.viaAlt else VaCopyImpl.viaMemcpy)])
    ∧ vaCopyExpansion VaCopyImpl.viaAlt = "__va_copy((d), (s))"
    ∧ vaCopyExpansion VaCopyImpl.viaMemcpy = "memcpy(&(d), &(s), sizeof(va_list))" := by
  refine ⟨?_, ?_, rfl, rfl⟩ <;>
    · rw [runFresh_eq]
      cases hv : i.vaPre <;> cases hav : c.altVaCopy <;> cases hw : c.win32 <;>
        cases hs : c.haveSsizeT <;> cases hn : i.stdin <;>
        simp [isVaCopyDef, isFileno]

/-- Claim C3 as amended: the header's stream-descriptor block is keyed on
`STDIN_FILENO` alone — when `STDIN_FILENO` is absent before inclusion the
header defines all three constants as 0, 1, 2 (overwriting any pre-existing
`STDOUT_FILENO`/`STDERR_FILENO`); when `STDIN_FILENO` is present it defines
none of them and leaves all three unchanged. -/
theorem c3_filenos_keyed_on_stdin (c : Flags) (i : PreEnv) :
    (runFresh c i).defs.filter isFileno =
      (if i.stdin.isNone then [Defn.dStdinFileno, Defn.dStdoutFileno, Defn.dStderrFileno] else [])
    ∧ (runFresh c i).stdinF = (if i.stdin.isNone then some 0 else i.stdin)
    ∧ (runFresh c i).stdoutF = (if i.stdin.isNone then some 1 else i.stdout)
    ∧ (runFresh c i).stderrF = (if i.stdin.isNone then some 2 else i.stderr) := by
  rw [runFresh_eq]
  cases hv : i.vaPre <;> cases hav : c.altVaCopy <;> cases hw : c.win32 <;>
    cases hs : c.haveSsizeT <;> cases hn : i.stdin <;>
    simp [isVaCopyDef, isFileno]

/-- Claim C3 counterexample: in a configuration where `STDOUT_FILENO` is
pre-defined but `STDIN_FILENO` is not, the stream constants are "not absent",
yet the header does not define none of them — it defines all three. -/
theorem c3_counterexample :
    ¬ ((mixedPre.stdin = none ∧ mixedPre.stdout = none ∧ mixedPre.stderr = none →
          (runFresh noFlags mixedPre).defs.filter isFileno =
              [Defn.dStdinFileno, Defn.dStdoutFileno, Defn.dStderrFileno]
            ∧ (runFresh noFlags mixedPre).stdinF = some 0
            ∧ (runFresh noFlags mixedPre).stdoutF = some 1
            ∧ (runFresh noFlags mixedPre).stderrF = some 2)
      ∧ (¬(mixedPre.stdin = none ∧ mixedPre.stdout = none ∧ mixedPre.stderr = none) →
          (runFresh noFlags mixedPre).defs.filter isFileno = [])) := by
  decide

/-- Claim C4: the header defines `snprintf` (as an alias for `_snprintf`)
exactly when `_WIN32` is defined. -/
theorem c4_snprintf_iff_win32 (c : Flags) (i : PreEnv) :
    (runFresh c i).snprintfF = (if c.win32 then some "_snprintf" else none)
    ∧ (runFresh c i).defs.contains Defn.dSnprintf = c.win32 := by
  rw [runFresh_eq]
  refine ⟨rfl, ?_⟩
  cases hv : i.vaPre <;> cases hav : c.altVaCopy <;> cases hw : c.win32 <;>
    cases hs : c.haveSsizeT <;> cases hn : i.stdin <;> simp

/-- Claim C5: the header emits the `typedef ptrdiff_t ssize_t` exactly when
`HAVE_SSIZE_T` is not defined. -/
theorem c5_ssize_t_iff_absent (c : Flags) (i : PreEnv) :
    (runFresh c i).defs.contains Defn.dSsizeT = !c.haveSsizeT := by
  rw [runFresh_eq]
  cases hv : i.vaPre <;> cases hav : c.altVaCopy <;> cases hw : c.win32 <;>
    cases hs : c.haveSsizeT <;> cases hn : i.stdin <;> simp

/-- Claim C6: each conditionally included header is included exactly when its
feature flag is set: `inttypes.h` iff `HAVE_INTTYPES_H`, `stdint.h` iff
`HAVE_STDINT_H`, `strings.h` iff `HAVE_STRINGS_H`, `unistd.h` iff
`HAVE_UNISTD_H`, `sys/bitypes.h` iff `HAVE_SYS_BITYPES_H`. -/
theorem c6_conditional_includes (c : Flags) (i : PreEnv) :
    (runFresh c i).includes.contains Hdr.inttypesH = c.haveInttypesH
    ∧ (runFresh c i).includes.contains Hdr.stdintH = c.haveStdintH
    ∧ (runFresh c i).includes.contains Hdr.stringsH = c.haveStringsH
    ∧ (runFresh c i).includes.contains Hdr.unistdH = c.haveUnistdH
    ∧ (runFresh c i).includes.contains Hdr.sysBitypesH = c.haveSysBitypesH := by
  rw [runFresh_eq]
  cases h1 : c.haveInttypesH <;> cases h2 : c.haveStdintH <;> cases h3 : c.haveStringsH <;>
    cases h4 : c.haveUnistdH <;> cases h5 : c.haveSysBitypesH <;> simp

/-- Claim C7: the five substitutions do not interact — each one's outcome is
a function of only its own inputs (`_WIN32` for `snprintf`, `HAVE_SSIZE_T`
for `ssize_t`, the pre-definedness of `STDIN_FILENO` for the descriptor
constants, the pre-definedness of `va_copy` plus `__va_copy` for `va_copy`,
and each inclusion flag for its header), regardless of every other flag. -/
theorem c7_no_interaction (c : Flags) (i : PreEnv) :
    (runFresh c i).snprintfF = snprintfOutcome c.win32
    ∧ (runFresh c i).defs.filter (fun d => d == Defn.dSnprintf) =
        (if c.win32 then [Defn.dSnprintf] else [])
    ∧ (runFresh c i).defs.filter (fun d => d == Defn.dSsizeT) = ssizeTOutcome c.haveSsizeT
    ∧ (runFresh c i).defs.filter isFileno = filenoOutcome i.stdin.isNone
    ∧ (runFresh c i).defs.filter isVaCopyDef = vaCopyOutcome i.vaPre c.altVaCopy
    ∧ (runFresh c i).includes.contains Hdr.inttypesH = c.haveInttypesH
    ∧ (runFresh c i).includes.contains Hdr.stdintH = c.haveStdintH
    ∧ (runFresh c i).includes.contains Hdr.stringsH = c.haveStringsH
    ∧ (runFresh c i).includes.contains Hdr.unistdH = c.haveUnistdH
    ∧ (runFresh c i).includes.contains Hdr.sysBitypesH = c.haveSysBitypesH := by
  rw [runFresh_eq]
  refine ⟨rfl, ?_, ?_, ?_, ?_, ?_, ?_, ?_, ?_, ?_⟩
  · cases hv : i.vaPre <;> cases hav : c.altVaCopy <;> cases hw : c.win32 <;>
      cases hs : c.haveSsizeT <;> cases hn : i.stdin <;> simp [isFileno, isVaCopyDef]
  · cases hv : i.vaPre <;> cases hav : c.altVaCopy <;> cases hw : c.win32 <;>
      cases hs : c.haveSsizeT <;> cases hn : i.stdin <;> simp [ssizeTOutcome]
  · cases hv : i.vaPre <;> cases hav : c.altVaCopy <;> cases hw : c.win32 <;>
      cases hs : c.haveSsizeT <;> cases hn : i.stdin <;>
      simp [filenoOutcome, isFileno, isVaCopyDef]
  · cases hv : i.vaPre <;> cases hav : c.altVaCopy <;> cases hw : c.win32 <;>
      cases hs : c.haveSsizeT <;> cases hn : i.stdin <;>
      simp [vaCopyOutcome, isFileno, isVaCopyDef]
  · cases h1 : c.haveInttypesH <;> cases h2 : c.haveStdintH <;> cases h3 : c.haveStringsH <;>
      cases h4 : c.haveUnistdH <;> cases h5 : c.haveSysBitypesH <;> simp
  · cases h1 : c.haveInttypesH <;> cases h2 : c.haveStdintH <;> cases h3 : c.haveStringsH <;>
      cases h4 : c.haveUnistdH <;> cases h5 : c.haveSysBitypesH <;> simp
  · cases h1 : c.haveInttypesH <;> cases h2 : c.haveStdintH <;> cases h3 : c.haveStringsH <;>
      cases h4 : c.haveUnistdH <;> cases h5 : c.haveSysBitypesH <;> simp
  · cases h1 : c.haveInttypesH <;> cases h2 : c.haveStdintH <;> cases h3 : c.haveStringsH <;>
      cases h4 : c.haveUnistdH <;> cases h5 : c.haveSysBitypesH <;> simp
  · cases h1 : c.haveInttypesH <;> cases h2 : c.haveStdintH <;> cases h3 : c.haveStringsH <;>
      cases h4 : c.haveUnistdH <;> cases h5 : c.haveSysBitypesH <;> simp

/-- Claim C8: processing the header is total and never fails — in the
fallible preprocessor semantics, every configuration and every starting
state produce `Except.ok` of exactly the state the total semantics gives;
no error branch is reachable. -/
theorem c8_no_error (c : Flags) (s : CppState) :
    includeSystemHChecked c s = Except.ok (includeSystemH c s) := by
  cases hg : s.guard <;>
    simp [includeSystemHChecked, includeSystemH, systemHBody, hg,
      doIncludeE, condIncludeE_ok, Except.bind]

/-- Claim C9: inclusion is idempotent — a second inclusion of the header is
skipped whole by the `PORTABLE_SYSTEM_H` guard, so the state after two
inclusions equals the state after one. -/
theorem c9_idempotent (c : Flags) (s : CppState) :
    includeSystemH c (includeSystemH c s) = includeSystemH c s := by
  cases hg : s.guard
  · have hb : (systemHBody c { s with guard := true }).guard = true := by
      simp [systemHBody, doInclude, condInclude_eq, defineSnprintf_eq, defineSsizeT_eq,
        defineFilenos_eq, defineVaCopy_eq]
    simp [includeSystemH, hg, hb]
  · simp [includeSystemH, hg]

/-- Claim C10: whether the header defines any stream descriptor constant
depends solely on `STDIN_FILENO` being pre-defined: with `STDIN_FILENO`
pre-defined the header defines none of the three and leaves all three
macros unchanged — in particular, pre-defining `STDIN_FILENO` without
`STDOUT_FILENO` leaves `STDOUT_FILENO` undefined after inclusion. -/
theorem c10_stdin_predefined_skips_all (c : Flags) (v : Nat) (i : PreEnv) :
    (runFresh c { i with stdin := some v }).defs.filter isFileno = []
    ∧ (runFresh c { i with stdin := some v }).stdinF = some v
    ∧ (runFresh c { i with stdin := some v }).stdoutF = i.stdout
    ∧ (runFresh c { i with stdin := some v }).stderrF = i.stderr
    ∧ (runFresh c { i with stdin := some v, stdout := none }).stdoutF = none := by
  rw [runFresh_eq, runFresh_eq]
  cases hv : i.vaPre <;> cases hav : c.altVaCopy <;> cases hw : c.win32 <;>
    cases hs : c.haveSsizeT <;> simp [isFileno, isVaCopyDef]

/-- Claim C1 counterexample: with no integer-width-type header available and
`STDOUT_FILENO` pre-defined while `STDIN_FILENO` is absent, the promised
symbols are not each defined exactly once (`STDOUT_FILENO` is defined twice
and the integer-width types not at all). -/
theorem c1_counterexample :
    ¬ (stdinCount noFlags mixedPre = 1 ∧ stdoutCount noFlags mixedPre = 1
       ∧ stderrCount noFlags mixedPre = 1 ∧ vaCopyCount noFlags mixedPre = 1
       ∧ snprintfCount noFlags mixedPre = 1 ∧ intTypesCount noFlags = 1) := by
  decide

/-- Claim C1 as amended: in every configuration in which the three stream
descriptor constants are coherently pre-defined (all three or none) and at
least one integer-width-type header is available, every promised symbol —
the three stream descriptor constants, the integer-width types, `va_copy`
and `snprintf` — is defined exactly once after inclusion, with no
redefinition conflicts. -/
theorem c1_defined_exactly_once (c : Flags) (i : PreEnv)
    (hOut : i.stdin.isNone = i.stdout.isNone) (hErr : i.stdin.isNone = i.stderr.isNone)
    (hInt : (c.haveInttypesH || c.haveStdintH || c.haveSysBitypesH) = true) :
    stdinCount c i = 1 ∧ stdoutCount c i = 1 ∧ stderrCount c i = 1
    ∧ vaCopyCount c i = 1 ∧ snprintfCount c i = 1 ∧ intTypesCount c = 1 := by
  rcases i with ⟨sin, sout, serr, vp⟩
  simp only [stdinCount, stdoutCount, stderrCount, vaCopyCount, snprintfCount,
    intTypesCount, runFresh_eq, hInt]
  cases sin <;> cases sout <;> cases serr <;> simp_all <;>
    cases vp <;> cases hav : c.altVaCopy <;> cases hw : c.win32 <;>
    cases hs : c.haveSsizeT <;> simp [isVaCopyDef]

/-- Witness for the amended Claim C1 at a concrete configuration. -/
theorem c1_defined_exactly_once_witness :
    stdinCount ⟨true, false, false, false, false, false, false, false⟩ ⟨none, none, none, false⟩ = 1
    ∧ stdoutCount ⟨true, false, false, false, false, false, false, false⟩ ⟨none, none, none, false⟩ = 1
    ∧ stderrCount ⟨true, false, false, false, false, false, false, false⟩ ⟨none, none, none, false⟩ = 1
    ∧ vaCopyCount ⟨true, false, false, false, false, false, false, false⟩ ⟨none, none, none, false⟩ = 1
    ∧ snprintfCount ⟨true, false, false, false, false, false, false, false⟩ ⟨none, none, none, false⟩ = 1
    ∧ intTypesCount ⟨true, false, false, false, false, false, false, false⟩ = 1 :=
  c1_defined_exactly_once ⟨true, false, false, false, false, false, false, false⟩
    ⟨none, none, none, false⟩ rfl rfl rfl

end SystemH
